import Mathlib

/-
Shallow embedding of the Django application in At0mn1yIvan/django_sprint4,
file src/blogicum/blog/views.py (routing in src/blogicum/blog/urls.py).
Records are Lean structures, the database is explicit lists of rows, and
each view function becomes a Lean function from a database, a requester and
the request data to a response paired with the database after the request.
-/

namespace Blog

/-- Request method, as Django exposes request.method; only GET and POST are
routed to these views. -/
inductive Method where
  | GET
  | POST
  deriving DecidableEq, Repr

/-- Modelled from the spec: the User model comes from django.contrib.auth,
which is not part of the repository sources. The spec names the User as the
authentication identity; views.py reads user.is_staff, user.username and
compares users by identity, which Django does by primary key. -/
structure User where
  id : Nat
  username : String
  is_staff : Bool
  deriving DecidableEq, Repr

/-- Modelled from the spec: blog/models.py is not in the sources. Section 3
of the spec gives Category the fields slug, title and a published flag;
views.py reads slug and is_published. -/
structure Category where
  id : Nat
  slug : String
  title : String
  is_published : Bool
  deriving DecidableEq, Repr

/-- Modelled from the spec: blog/models.py is not in the sources. Section 3
of the spec gives Post a title, text, publish date, published flag, author
reference and category reference; views.py filters on is_published,
pub_date and category.is_published. Foreign keys are stored as row ids and
the publish date as a Nat instant. -/
structure Post where
  id : Nat
  title : String
  text : String
  pub_date : Nat
  is_published : Bool
  author : Nat
  category : Nat
  deriving DecidableEq, Repr

/-- Modelled from the spec: blog/models.py is not in the sources. Section 3
of the spec gives Comment a text, an author reference, a post reference and
a timestamp. -/
structure Comment where
  id : Nat
  text : String
  author : Nat
  post : Nat
  created_at : Nat
  deriving DecidableEq, Repr

/-- The relational store the views query: one list of rows per entity. -/
structure DB where
  users : List User
  categories : List Category
  posts : List Post
  comments : List Comment
  deriving DecidableEq, Repr

/-- Lookup of a Post by primary key, as get_object_or_404(Post, pk=...)
does; none is the 404 case. -/
def DB.findPost (db : DB) (pk : Nat) : Option Post :=
  db.posts.find? (fun p => p.id == pk)

/-- Lookup of a Category by slug, as get_object_or_404(Category, slug=...)
does in CategoryListView.get_category. -/
def DB.findCategoryBySlug (db : DB) (slug : String) : Option Category :=
  db.categories.find? (fun c => c.slug == slug)

/-- Lookup of a Category row by primary key; it realises the ORM join
behind the filter category__is_published=True. -/
def DB.findCategoryById (db : DB) (pk : Nat) : Option Category :=
  db.categories.find? (fun c => c.id == pk)

/-- Lookup of a User by username, as get_object_or_404(User, username=...)
does in ProfileListView.get_profile. -/
def DB.findUserByUsername (db : DB) (username : String) : Option User :=
  db.users.find? (fun u => u.username == username)

/-- Lookup of a Comment by primary key alone, as get_object_or_404(Comment,
pk=comment_id) does in delete_comment. -/
def DB.findComment (db : DB) (pk : Nat) : Option Comment :=
  db.comments.find? (fun c => c.id == pk)

/-- Lookup of a Comment by primary key and owning post, as
get_object_or_404(Comment, pk=comment_id, post=post) does in add_comment. -/
def DB.findCommentInPost (db : DB) (pk : Nat) (postId : Nat) : Option Comment :=
  db.comments.find? (fun c => c.id == pk && c.post == postId)

/-- Evaluation of the join condition category__is_published=True for one
post row: the referenced category row exists and its flag is set. -/
def DB.categoryPublished (db : DB) (catId : Nat) : Bool :=
  match db.findCategoryById catId with
  | some c => c.is_published
  | none => false

/-- The visibility predicate the spec states for public listings: the post
is published, its publish date is not in the future, and its category is
published. Written from the words of the spec, to be compared with the
querysets embedded from the source. -/
def postVisible (db : DB) (now : Nat) (p : Post) : Bool :=
  p.is_published && decide (p.pub_date ≤ now) && db.categoryPublished p.category

/-- Ordering relation of order_by("-pub_date"): later publish dates come
first. -/
def pubDateDesc (a b : Post) : Prop := b.pub_date ≤ a.pub_date

instance : DecidableRel pubDateDesc := fun a b => Nat.decLe b.pub_date a.pub_date

instance : IsTotal Post pubDateDesc := ⟨fun x y => Nat.le_total y.pub_date x.pub_date⟩

instance : IsTrans Post pubDateDesc := ⟨fun _ _ _ h1 h2 => Nat.le_trans h2 h1⟩

/-- Realisation of order_by("-pub_date") on a list of rows. -/
def orderByPubDateDesc (xs : List Post) : List Post :=
  List.insertionSort pubDateDesc xs

/-- Page size shared by the three ListView classes (views.py line 15). -/
def PAGE_PAGINATOR : Nat := 10

/-- One page of a Django paginator over an ordered queryset: page numbers
start at 1 and each page holds at most pageSize rows. -/
def paginate (xs : List Post) (pageSize pageNum : Nat) : List Post :=
  (xs.drop ((pageNum - 1) * pageSize)).take pageSize

/-- Redirect targets the views produce, with the URL each reverses to under
blog/urls.py (login_url is given literally in the decorators). -/
inductive Target where
  | login
  | index
  | profile (username : String)
  | postDetail (postId : Nat)
  deriving DecidableEq, Repr

/-- URL a redirect target resolves to, following blog/urls.py and the
login_url="/auth/login/" arguments of the decorators. -/
def Target.url : Target → String
  | Target.login => "/auth/login/"
  | Target.index => "/"
  | Target.profile u => "/profile/" ++ u ++ "/"
  | Target.postDetail i => "/posts/" ++ toString i ++ "/"

/-- Outcome of a request: a rendered template, a redirect, or Http404. -/
inductive Response where
  | render (template : String)
  | redirect (target : Target)
  | notFound
  deriving DecidableEq, Repr

/-- Queryset of HomePage (views.py lines 25-38): posts that are published,
not future dated and in a published category, ordered by publish date
descending. The comment_count annotation adds a display column and touches
no rows. -/
def HomePage.get_queryset (db : DB) (now : Nat) : List Post :=
  orderByPubDateDesc
    (db.posts.filter
      (fun p =>
        p.is_published && decide (p.pub_date ≤ now) && db.categoryPublished p.category))

/-- Queryset of CategoryListView (views.py lines 56-74): the category is
fetched by slug (404 when absent), an unpublished category raises Http404,
and the remaining posts of the category are filtered on is_published and
pub_date and ordered by publish date descending. none is the 404 case. -/
def CategoryListView.get_queryset (db : DB) (now : Nat) (category_slug : String) :
    Option (List Post) :=
  match db.findCategoryBySlug category_slug with
  | none => none
  | some category =>
    if category.is_published then
      some (orderByPubDateDesc
        (db.posts.filter
          (fun p =>
            p.category == category.id && p.is_published && decide (p.pub_date ≤ now))))
    else none

/-- Queryset of ProfileListView (views.py lines 92-104): the user is
fetched by username (404 when absent) and the queryset filters on the
author alone, ordered by publish date descending. none is the 404 case. -/
def ProfileListView.get_queryset (db : DB) (username : String) : Option (List Post) :=
  match db.findUserByUsername username with
  | none => none
  | some profile =>
    some (orderByPubDateDesc (db.posts.filter (fun p => p.author == profile.id)))

/-- View post_detail (views.py lines 136-161): the post is fetched by pk
(404 when absent); a requester other than the author refetches it with the
visibility filters, turning a hidden post into a 404; then the template is
rendered. The requester is none when anonymous, and an anonymous requester
never equals the author. -/
def post_detail (db : DB) (now : Nat) (user : Option User) (post_id : Nat) :
    Response × DB :=
  match db.findPost post_id with
  | none => (Response.notFound, db)
  | some current_post =>
    match user with
    | some u =>
      if u.id == current_post.author then
        (Response.render "blog/detail.html", db)
      else if postVisible db now current_post then
        (Response.render "blog/detail.html", db)
      else (Response.notFound, db)
    | none =>
      if postVisible db now current_post then
        (Response.render "blog/detail.html", db)
      else (Response.notFound, db)

/-- Modelled from the spec: blog/forms.py is not in the sources. PostForm
carries the user editable fields of a Post (all but id and author, which
create_post assigns itself); its validation verdict is the formValid
argument of the handlers. -/
structure PostFormData where
  title : String
  text : String
  pub_date : Nat
  is_published : Bool
  category : Nat
  deriving DecidableEq, Repr

/-- Modelled from the spec: blog/forms.py is not in the sources. CommentForm
carries the comment text; add_comment assigns author and post itself. -/
structure CommentFormData where
  text : String
  deriving DecidableEq, Repr

/-- Modelled from the spec: blog/forms.py is not in the sources.
ProfileEditForm edits identity fields of the logged in user; the username
is the field the views read back after saving. -/
structure ProfileFormData where
  username : String
  deriving DecidableEq, Repr

/-- Fresh primary key for an inserted row, as the storage engine assigns. -/
def freshId (ids : List Nat) : Nat :=
  ids.foldr (fun a b => max a b) 0 + 1

/-- Row update for a Post by primary key, as form.save on an instance. -/
def DB.updatePost (db : DB) (p : Post) : DB :=
  { db with posts := db.posts.map (fun q => if q.id == p.id then p else q) }

/-- Row update for a Comment by primary key, as form.save on an instance. -/
def DB.updateComment (db : DB) (c : Comment) : DB :=
  { db with comments := db.comments.map (fun d => if d.id == c.id then c else d) }

/-- Deletion of a Post row; the comments referencing it go with it, which
is the cascade the relational schema of section 3 implies. -/
def DB.deletePost (db : DB) (pk : Nat) : DB :=
  { db with
    posts := db.posts.filter (fun p => p.id != pk),
    comments := db.comments.filter (fun c => c.post != pk) }

/-- Deletion of a Comment row. -/
def DB.deleteComment (db : DB) (pk : Nat) : DB :=
  { db with comments := db.comments.filter (fun c => c.id != pk) }

/-- View create_post (views.py lines 164-189), mapped by urls.py both to
posts/create/ (pk_post none) and posts/<pk>/edit/ (pk_post some). The
decorator login_required redirects an anonymous requester to /auth/login/.
On edit, a missing post is a 404 and a requester other than the author is
redirected to the post detail page. The form is bound only on POST
(request.POST or None), so a save happens exactly on a valid POST; the
saved post takes the requester as author and a redirect to the profile
follows; otherwise the form page is rendered again. -/
def create_post (db : DB) (user : Option User) (method : Method)
    (fd : PostFormData) (formValid : Bool) (pk_post : Option Nat) : Response × DB :=
  match user with
  | none => (Response.redirect Target.login, db)
  | some u =>
    let save : Option Post → Response × DB := fun inst =>
      if method == Method.POST && formValid then
        match inst with
        | some i =>
          let upd : Post :=
            { i with
              title := fd.title, text := fd.text, pub_date := fd.pub_date,
              is_published := fd.is_published, category := fd.category,
              author := u.id }
          (Response.redirect (Target.profile u.username), db.updatePost upd)
        | none =>
          let newPost : Post :=
            { id := freshId (db.posts.map (fun p => p.id)),
              title := fd.title, text := fd.text, pub_date := fd.pub_date,
              is_published := fd.is_published, category := fd.category,
              author := u.id }
          (Response.redirect (Target.profile u.username),
           { db with posts := db.posts ++ [newPost] })
      else (Response.render "blog/create.html", db)
    match pk_post with
    | some pk =>
      match db.findPost pk with
      | none => (Response.notFound, db)
      | some inst =>
        if u.id != inst.author then
          (Response.redirect (Target.postDetail inst.id), db)
        else save (some inst)
    | none => save none

/-- View delete_post (views.py lines 192-208). Anonymous requesters go to
the login page; a missing post is a 404; a requester that is neither the
author nor staff is redirected to the post detail page; a POST deletes the
row and redirects to the index; a GET renders the confirmation page. -/
def delete_post (db : DB) (user : Option User) (method : Method) (pk_post : Nat) :
    Response × DB :=
  match user with
  | none => (Response.redirect Target.login, db)
  | some u =>
    match db.findPost pk_post with
    | none => (Response.notFound, db)
    | some inst =>
      if u.id != inst.author && !u.is_staff then
        (Response.redirect (Target.postDetail inst.id), db)
      else if method == Method.POST then
        (Response.redirect Target.index, db.deletePost pk_post)
      else (Response.render "blog/create.html", db)

/-- View add_comment (views.py lines 211-240), mapped by urls.py both to
posts/<post_id>/comment/ (comment_id none) and
posts/<post_id>/edit_comment/<comment_id>/ (comment_id some). Anonymous
requesters go to the login page; a missing post is a 404; on edit the
comment is fetched by pk and owning post (404 on a mismatch) and a
requester other than the comment author is redirected. A valid POST saves
the comment with the requester as author and the fetched post as owner and
redirects to the post detail page; any other request renders the form
page. -/
def add_comment (db : DB) (user : Option User) (method : Method)
    (fd : CommentFormData) (formValid : Bool) (now : Nat)
    (post_id : Nat) (comment_id : Option Nat) : Response × DB :=
  match user with
  | none => (Response.redirect Target.login, db)
  | some u =>
    match db.findPost post_id with
    | none => (Response.notFound, db)
    | some post =>
      let save : Option Comment → Response × DB := fun inst =>
        if method == Method.POST && formValid then
          match inst with
          | some c =>
            let upd : Comment := { c with text := fd.text, author := u.id, post := post.id }
            (Response.redirect (Target.postDetail post.id), db.updateComment upd)
          | none =>
            let newComment : Comment :=
              { id := freshId (db.comments.map (fun c => c.id)),
                text := fd.text, author := u.id, post := post.id, created_at := now }
            (Response.redirect (Target.postDetail post.id),
             { db with comments := db.comments ++ [newComment] })
        else (Response.render "blog/comment.html", db)
      match comment_id with
      | some cid =>
        match db.findCommentInPost cid post.id with
        | none => (Response.notFound, db)
        | some comment =>
          if u.id != comment.author then
            (Response.redirect (Target.postDetail post.id), db)
          else save (some comment)
      | none => save none

/-- View delete_comment (views.py lines 243-259). Anonymous requesters go
to the login page; the comment is fetched by pk alone, with no check that
it belongs to the post named in the URL; a requester other than the comment
author is redirected to the detail page of the URL post; a POST deletes the
row and redirects there too; a GET renders the confirmation page. -/
def delete_comment (db : DB) (user : Option User) (method : Method)
    (post_id comment_id : Nat) : Response × DB :=
  match user with
  | none => (Response.redirect Target.login, db)
  | some u =>
    match db.findComment comment_id with
    | none => (Response.notFound, db)
    | some comment =>
      if u.id != comment.author then
        (Response.redirect (Target.postDetail post_id), db)
      else if method == Method.POST then
        (Response.redirect (Target.postDetail post_id), db.deleteComment comment_id)
      else (Response.render "blog/comment.html", db)

/-- View edit_profile (views.py lines 116-133). Anonymous requesters go to
the login page; a valid POST saves the form on the logged in user row and
redirects to the profile page under the saved username; any other request
renders the form page again. -/
def edit_profile (db : DB) (user : Option User) (method : Method)
    (fd : ProfileFormData) (formValid : Bool) : Response × DB :=
  match user with
  | none => (Response.redirect Target.login, db)
  | some u =>
    if method == Method.POST && formValid then
      let upd : User := { u with username := fd.username }
      (Response.redirect (Target.profile upd.username),
       { db with users := db.users.map (fun v => if v.id == u.id then upd else v) })
    else (Response.render "blog/user.html", db)

/-- Uniqueness of rows by key in a table whose keys are pairwise distinct. -/
theorem mem_key_unique {α : Type} (key : α → Nat) (l : List α) :
    l.Pairwise (fun a b => key a ≠ key b) →
      ∀ x ∈ l, ∀ c ∈ l, key x = key c → x = c := by
  induction l with
  | nil => intro _ x hx; cases hx
  | cons a t ih =>
    intro hnd x hx c hc hkey
    rcases List.pairwise_cons.mp hnd with ⟨ha, ht⟩
    rcases List.mem_cons.mp hx with hx1 | hx1
    · rcases List.mem_cons.mp hc with hc1 | hc1
      · rw [hx1, hc1]
      · exact absurd hkey (hx1 ▸ ha c hc1)
    · rcases List.mem_cons.mp hc with hc1 | hc1
      · exact absurd (hc1 ▸ hkey) (Ne.symm (ha x hx1))
      · exact ih ht x hx1 c hc1 hkey

/-- Lookup by key finds exactly the member row when keys are pairwise
distinct. -/
theorem find_key_of_mem {α : Type} (key : α → Nat) (l : List α) :
    l.Pairwise (fun a b => key a ≠ key b) → ∀ c ∈ l,
      l.find? (fun x => key x == key c) = some c := by
  induction l with
  | nil => intro _ c hc; cases hc
  | cons a t ih =>
    intro hnd c hc
    rcases List.pairwise_cons.mp hnd with ⟨ha, ht⟩
    rcases List.mem_cons.mp hc with hc1 | hc1
    · rw [hc1]
      exact List.find?_cons_of_pos t (beq_self_eq_true (key a))
    · have hne : (key a == key c) = false := beq_eq_false_iff_ne.mpr (ha c hc1)
      rw [List.find?_cons_of_neg t (by rw [hne]; exact Bool.false_ne_true)]
      exact ih ht c hc1

/-- Fixture user: the author of the fixture post and comment. -/
def exU1 : User := { id := 1, username := "ivan", is_staff := false }

/-- Fixture user: a staff member who authored nothing. -/
def exU2 : User := { id := 2, username := "boss", is_staff := true }

/-- Fixture user: a plain user who authored nothing. -/
def exU3 : User := { id := 3, username := "alex", is_staff := false }

/-- Fixture published category. -/
def exCat1 : Category := { id := 1, slug := "news", title := "News", is_published := true }

/-- Fixture unpublished category. -/
def exCat2 : Category := { id := 2, slug := "drafts", title := "Drafts", is_published := false }

/-- Fixture published, past dated post in the published category. -/
def exPost1 : Post :=
  { id := 1, title := "hello", text := "t1", pub_date := 50,
    is_published := true, author := 1, category := 1 }

/-- Fixture unpublished post by the same author. -/
def exPost2 : Post :=
  { id := 2, title := "draft", text := "t2", pub_date := 60,
    is_published := false, author := 1, category := 1 }

/-- Fixture comment by exU1 attached to exPost1. -/
def exComment1 : Comment :=
  { id := 1, text := "nice", author := 1, post := 1, created_at := 55 }

/-- Fixture database holding all fixture rows. -/
def exDB : DB :=
  { users := [exU1, exU2, exU3], categories := [exCat1, exCat2],
    posts := [exPost1, exPost2], comments := [exComment1] }

/-- Empty database, for the not-found cases. -/
def emptyDB : DB := { users := [], categories := [], posts := [], comments := [] }

/-- Fixture post form payload. -/
def exPFD : PostFormData :=
  { title := "x", text := "y", pub_date := 10, is_published := true, category := 1 }

/-- Fixture comment form payload. -/
def exCFD : CommentFormData := { text := "z" }

/-- Fixture profile form payload. -/
def exUFD : ProfileFormData := { username := "ivan2" }

/-- C4: every mutating endpoint (post create, post edit, post delete,
comment add, comment edit, comment delete, profile edit) rejects an
anonymous requester with a redirect to the login page at /auth/login/ and
leaves the database unchanged. -/
theorem C4_login_required (db : DB) (method : Method) (pfd : PostFormData)
    (cfd : CommentFormData) (ufd : ProfileFormData) (fv : Bool) (now pk pid : Nat)
    (cid : Option Nat) :
    create_post db none method pfd fv none = (Response.redirect Target.login, db) ∧
    create_post db none method pfd fv (some pk) = (Response.redirect Target.login, db) ∧
    delete_post db none method pk = (Response.redirect Target.login, db) ∧
    add_comment db none method cfd fv now pid cid = (Response.redirect Target.login, db) ∧
    delete_comment db none method pid pk = (Response.redirect Target.login, db) ∧
    edit_profile db none method ufd fv = (Response.redirect Target.login, db) ∧
    Target.login.url = "/auth/login/" :=
  ⟨rfl, rfl, rfl, rfl, rfl, rfl, rfl⟩

/-- C5: a request referencing a missing record (post by id in the detail,
edit, delete and comment views, category by slug, user by username, comment
by id, including an existing comment looked up under the wrong post) gets a
404 response and the database is unchanged. -/
theorem C5_not_found (db : DB) (now : Nat) (user : Option User) (u : User)
    (method : Method) (slug username : String) (pfd : PostFormData)
    (cfd : CommentFormData) (fv : Bool) (pk pid cid : Nat) :
    (db.findPost pid = none → post_detail db now user pid = (Response.notFound, db)) ∧
    (db.findCategoryBySlug slug = none →
      CategoryListView.get_queryset db now slug = none) ∧
    (db.findUserByUsername username = none →
      ProfileListView.get_queryset db username = none) ∧
    (db.findPost pk = none →
      create_post db (some u) method pfd fv (some pk) = (Response.notFound, db)) ∧
    (db.findPost pk = none →
      delete_post db (some u) method pk = (Response.notFound, db)) ∧
    (db.findPost pid = none →
      add_comment db (some u) method cfd fv now pid (some cid) = (Response.notFound, db)) ∧
    (∀ post, db.findPost pid = some post → db.findCommentInPost cid post.id = none →
      add_comment db (some u) method cfd fv now pid (some cid) = (Response.notFound, db)) ∧
    (db.findComment cid = none →
      delete_comment db (some u) method pid cid = (Response.notFound, db)) := by
  refine ⟨?_, ?_, ?_, ?_, ?_, ?_, ?_, ?_⟩
  · intro h; simp [post_detail, h]
  · intro h; simp [CategoryListView.get_queryset, h]
  · intro h; simp [ProfileListView.get_queryset, h]
  · intro h; simp [create_post, h]
  · intro h; simp [delete_post, h]
  · intro h; simp [add_comment, h]
  · intro post hpost hnone; simp [add_comment, hpost, hnone]
  · intro h; simp [delete_comment, h]

/-- C5 witness: on concrete databases every missing-record lookup of the
theorem yields the 404 outcome. -/
theorem C5_not_found_witness :
    post_detail emptyDB 0 none 1 = (Response.notFound, emptyDB) ∧
    CategoryListView.get_queryset emptyDB 0 "news" = none ∧
    ProfileListView.get_queryset emptyDB "ivan" = none ∧
    create_post emptyDB (some exU1) Method.POST exPFD true (some 1) =
      (Response.notFound, emptyDB) ∧
    delete_post emptyDB (some exU1) Method.POST 1 = (Response.notFound, emptyDB) ∧
    add_comment emptyDB (some exU1) Method.POST exCFD true 0 1 (some 1) =
      (Response.notFound, emptyDB) ∧
    delete_comment emptyDB (some exU1) Method.POST 1 1 = (Response.notFound, emptyDB) ∧
    add_comment exDB (some exU1) Method.POST exCFD true 0 2 (some 1) =
      (Response.notFound, exDB) := by
  have h := C5_not_found emptyDB 0 none exU1 Method.POST "news" "ivan" exPFD exCFD true 1 1 1
  have h2 := C5_not_found exDB 0 none exU1 Method.POST "news" "ivan" exPFD exCFD true 1 2 1
  exact ⟨h.1 rfl, h.2.1 rfl, h.2.2.1 rfl, h.2.2.2.1 rfl, h.2.2.2.2.1 rfl,
    h.2.2.2.2.2.1 rfl, h.2.2.2.2.2.2.2 rfl,
    h2.2.2.2.2.2.2.1 exPost2 (by decide) (by decide)⟩

/-- C6: a POST whose form fails validation (post create, post edit, comment
add, comment edit, profile edit) creates and modifies nothing and
re-renders the same form template. -/
theorem C6_invalid_form (db : DB) (u : User) (pfd : PostFormData) (cfd : CommentFormData)
    (ufd : ProfileFormData) (now pk pid cid : Nat) (p post : Post) (c : Comment) :
    create_post db (some u) Method.POST pfd false none =
      (Response.render "blog/create.html", db) ∧
    (db.findPost pk = some p → u.id = p.author →
      create_post db (some u) Method.POST pfd false (some pk) =
        (Response.render "blog/create.html", db)) ∧
    (db.findPost pid = some post →
      add_comment db (some u) Method.POST cfd false now pid none =
        (Response.render "blog/comment.html", db)) ∧
    (db.findPost pid = some post → db.findCommentInPost cid post.id = some c →
      u.id = c.author →
      add_comment db (some u) Method.POST cfd false now pid (some cid) =
        (Response.render "blog/comment.html", db)) ∧
    edit_profile db (some u) Method.POST ufd false =
      (Response.render "blog/user.html", db) := by
  refine ⟨?_, ?_, ?_, ?_, ?_⟩
  · simp [create_post]
  · intro hp hauth; simp [create_post, hp, hauth]
  · intro hpost; simp [add_comment, hpost]
  · intro hpost hc hauth; simp [add_comment, hpost, hc, hauth]
  · simp [edit_profile]

/-- C6 witness: concrete invalid submissions on the fixture database
re-render the form templates and leave the database unchanged. -/
theorem C6_invalid_form_witness :
    create_post exDB (some exU1) Method.POST exPFD false none =
      (Response.render "blog/create.html", exDB) ∧
    create_post exDB (some exU1) Method.POST exPFD false (some 1) =
      (Response.render "blog/create.html", exDB) ∧
    add_comment exDB (some exU1) Method.POST exCFD false 55 1 none =
      (Response.render "blog/comment.html", exDB) ∧
    add_comment exDB (some exU1) Method.POST exCFD false 55 1 (some 1) =
      (Response.render "blog/comment.html", exDB) ∧
    edit_profile exDB (some exU1) Method.POST exUFD false =
      (Response.render "blog/user.html", exDB) := by
  have h := C6_invalid_form exDB exU1 exPFD exCFD exUFD 55 1 1 1 exPost1 exPost1 exComment1
  exact ⟨h.1, h.2.1 (by decide) (by decide), h.2.2.1 (by decide),
    h.2.2.2.1 (by decide) (by decide) (by decide), h.2.2.2.2⟩

/-- C7: the detail page renders an existing post for its author whatever
the publication state, and answers 404 to every other requester, anonymous
ones included, when the post fails the visibility predicate. -/
theorem C7_detail_visibility (db : DB) (now : Nat) (user : Option User) (pid : Nat)
    (p : Post) (hp : db.findPost pid = some p) :
    (∀ u, user = some u → u.id = p.author →
      post_detail db now user pid = (Response.render "blog/detail.html", db)) ∧
    ((∀ u, user = some u → u.id ≠ p.author) → postVisible db now p = false →
      post_detail db now user pid = (Response.notFound, db)) := by
  constructor
  · intro u hu hauth
    subst hu
    simp [post_detail, hp, hauth]
  · intro hne hvis
    match user with
    | none => simp [post_detail, hp, hvis]
    | some u =>
      have : u.id ≠ p.author := hne u rfl
      simp [post_detail, hp, hvis, this]

/-- C7 witness: the author sees the unpublished fixture post while an
anonymous requester and a different user get a 404 on it. -/
theorem C7_detail_visibility_witness :
    post_detail exDB 100 (some exU1) 2 = (Response.render "blog/detail.html", exDB) ∧
    post_detail exDB 100 none 2 = (Response.notFound, exDB) ∧
    post_detail exDB 100 (some exU3) 2 = (Response.notFound, exDB) := by
  have h1 := C7_detail_visibility exDB 100 (some exU1) 2 exPost2 (by decide)
  have h2 := C7_detail_visibility exDB 100 none 2 exPost2 (by decide)
  have h3 := C7_detail_visibility exDB 100 (some exU3) 2 exPost2 (by decide)
  refine ⟨h1.1 exU1 rfl (by decide), ?_, ?_⟩
  · exact h2.2 (fun u hu => by cases hu) (by decide)
  · exact h3.2 (fun u hu => by cases hu; decide) (by decide)

/-- C3: an authenticated requester who is not authorized for the record it
tries to mutate (post edit by a non author, post delete by a non author non
staff, comment edit or delete by a non author) changes nothing and is
redirected to the detail page of the post concerned. -/
theorem C3_unauthorized (db : DB) (u : User) (method : Method)
    (fd : PostFormData) (cfd : CommentFormData) (fv : Bool) (now : Nat)
    (pk pid cid : Nat) (p post : Post) (c : Comment) :
    (db.findPost pk = some p → u.id ≠ p.author →
      create_post db (some u) method fd fv (some pk) =
        (Response.redirect (Target.postDetail p.id), db)) ∧
    (db.findPost pk = some p → u.id ≠ p.author → u.is_staff = false →
      delete_post db (some u) method pk =
        (Response.redirect (Target.postDetail p.id), db)) ∧
    (db.findPost pid = some post → db.findCommentInPost cid post.id = some c →
      u.id ≠ c.author →
      add_comment db (some u) method cfd fv now pid (some cid) =
        (Response.redirect (Target.postDetail post.id), db)) ∧
    (db.findComment cid = some c → u.id ≠ c.author →
      delete_comment db (some u) method pid cid =
        (Response.redirect (Target.postDetail pid), db)) := by
  refine ⟨?_, ?_, ?_, ?_⟩
  · intro hp hne; simp [create_post, hp, hne]
  · intro hp hne hstaff; simp [delete_post, hp, hne, hstaff]
  · intro hpost hcomm hne; simp [add_comment, hpost, hcomm, hne]
  · intro hcomm hne; simp [delete_comment, hcomm, hne]

/-- C3 witness: the fixture user exU3, neither author nor staff, is
redirected by all four mutation views on the fixture records and the
database stays as it was. -/
theorem C3_unauthorized_witness :
    create_post exDB (some exU3) Method.POST exPFD true (some 1) =
      (Response.redirect (Target.postDetail 1), exDB) ∧
    delete_post exDB (some exU3) Method.POST 1 =
      (Response.redirect (Target.postDetail 1), exDB) ∧
    add_comment exDB (some exU3) Method.POST exCFD true 0 1 (some 1) =
      (Response.redirect (Target.postDetail 1), exDB) ∧
    delete_comment exDB (some exU3) Method.POST 1 1 =
      (Response.redirect (Target.postDetail 1), exDB) := by
  have h := C3_unauthorized exDB exU3 Method.POST exPFD exCFD true 0 1 1 1
    exPost1 exPost1 exComment1
  exact ⟨h.1 (by decide) (by decide), h.2.1 (by decide) (by decide) (by decide),
    h.2.2.1 (by decide) (by decide) (by decide), h.2.2.2 (by decide) (by decide)⟩

/-- C2 counterexample: the staff fixture user exU2 is not the author of the
fixture comment; the claim says a staff POST to the comment delete endpoint
deletes the record, but delete_comment redirects and leaves the database
unchanged, the comment still present. -/
theorem C2_counterexample :
    exU2.is_staff = true ∧ exU2.id ≠ exComment1.author ∧
    DB.findComment exDB 1 = some exComment1 ∧
    delete_comment exDB (some exU2) Method.POST 1 1 =
      (Response.redirect (Target.postDetail 1), exDB) ∧
    exComment1 ∈ exDB.comments := by decide

/-- C2 amended: a POST to the post delete endpoint by an authenticated
requester deletes the post exactly when the requester is the author or
staff, and otherwise redirects without deleting; a POST to the comment
delete endpoint deletes the comment exactly when the requester is the
author, with no staff bypass, and otherwise redirects without deleting. -/
theorem C2_amended (db : DB) (u : User) (pk pid cid : Nat) (p : Post) (c : Comment)
    (hp : db.findPost pk = some p) (hc : db.findComment cid = some c) :
    (delete_post db (some u) Method.POST pk =
      if u.id = p.author ∨ u.is_staff = true
      then (Response.redirect Target.index, db.deletePost pk)
      else (Response.redirect (Target.postDetail p.id), db)) ∧
    (∀ q ∈ (db.deletePost pk).posts, q.id ≠ pk) ∧
    (delete_comment db (some u) Method.POST pid cid =
      if u.id = c.author
      then (Response.redirect (Target.postDetail pid), db.deleteComment cid)
      else (Response.redirect (Target.postDetail pid), db)) ∧
    (∀ d ∈ (db.deleteComment cid).comments, d.id ≠ cid) := by
  refine ⟨?_, ?_, ?_, ?_⟩
  · by_cases h1 : u.id = p.author
    · simp [delete_post, hp, h1]
    · by_cases h2 : u.is_staff
      · simp [delete_post, hp, h1, h2]
      · simp [delete_post, hp, h1, h2]
  · intro q hq
    have := (List.mem_filter.mp hq).2
    simpa using this
  · by_cases h1 : u.id = c.author
    · simp [delete_comment, hc, h1]
    · simp [delete_comment, hc, h1]
  · intro d hd
    have := (List.mem_filter.mp hd).2
    simpa using this

/-- C2 amended witness: on the fixture database the author deletes their
post and their comment, while the staff user deletes the post but not the
comment. -/
theorem C2_amended_witness :
    delete_post exDB (some exU1) Method.POST 1 =
      (Response.redirect Target.index, exDB.deletePost 1) ∧
    delete_comment exDB (some exU1) Method.POST 1 1 =
      (Response.redirect (Target.postDetail 1), exDB.deleteComment 1) ∧
    delete_post exDB (some exU2) Method.POST 1 =
      (Response.redirect Target.index, exDB.deletePost 1) ∧
    delete_comment exDB (some exU2) Method.POST 1 1 =
      (Response.redirect (Target.postDetail 1), exDB) := by
  have h1 := C2_amended exDB exU1 1 1 1 exPost1 exComment1 (by decide) (by decide)
  have h2 := C2_amended exDB exU2 1 1 1 exPost1 exComment1 (by decide) (by decide)
  refine ⟨?_, ?_, ?_, ?_⟩
  · rw [h1.1]; simp [exU1, exPost1]
  · rw [h1.2.2.1]; simp [exU1, exComment1]
  · rw [h2.1]; simp [exU2]
  · rw [h2.2.2.1]; simp [exU2, exComment1]

/-- C8: delete_comment never checks that the comment belongs to the post in
the URL, so a POST by the comment author deletes it under any post id, the
mismatched one included, while the comment edit route answers 404 on the
same mismatch because it fetches the comment constrained to the post. -/
theorem C8_mismatch (db : DB) (u : User) (fd : CommentFormData) (now pid cid : Nat)
    (c : Comment) (post : Post)
    (hnd : db.comments.Pairwise (fun a b => a.id ≠ b.id))
    (hc : db.findComment cid = some c) (hauth : u.id = c.author)
    (hp : db.findPost pid = some post) (hmismatch : c.post ≠ pid) :
    delete_comment db (some u) Method.POST pid cid =
      (Response.redirect (Target.postDetail pid), db.deleteComment cid) ∧
    (∀ d ∈ (db.deleteComment cid).comments, d.id ≠ cid) ∧
    add_comment db (some u) Method.POST fd true now pid (some cid) =
      (Response.notFound, db) := by
  have hcid : c.id = cid := by
    have := List.find?_some hc
    simpa using this
  have hcmem : c ∈ db.comments := List.mem_of_find?_eq_some hc
  have hpostid : post.id = pid := by
    have := List.find?_some hp
    simpa using this
  refine ⟨?_, ?_, ?_⟩
  · simp [delete_comment, hc, hauth]
  · intro d hd
    have := (List.mem_filter.mp hd).2
    simpa using this
  · have hnone : db.findCommentInPost cid post.id = none := by
      unfold DB.findCommentInPost
      rw [List.find?_eq_none]
      intro x hx hcontra
      simp only [Bool.and_eq_true, beq_iff_eq] at hcontra
      obtain ⟨hxid, hxpost⟩ := hcontra
      have hxc : x = c :=
        mem_key_unique (fun y => y.id) db.comments hnd x hx c hcmem (hxid.trans hcid.symm)
      have hcpid : c.post = pid := by rw [← hxc, hxpost, hpostid]
      exact hmismatch hcpid
    simp [add_comment, hp, hnone]

/-- C8 witness: the fixture comment lives on post 1, yet its author deletes
it through the URL of post 2, while editing it through the URL of post 2
answers 404. -/
theorem C8_mismatch_witness :
    delete_comment exDB (some exU1) Method.POST 2 1 =
      (Response.redirect (Target.postDetail 2), exDB.deleteComment 1) ∧
    add_comment exDB (some exU1) Method.POST exCFD true 0 2 (some 1) =
      (Response.notFound, exDB) := by
  have h := C8_mismatch exDB exU1 exCFD 0 2 1 exComment1 exPost2
    (by decide) (by decide) (by decide) (by decide) (by decide)
  exact ⟨h.1, h.2.2⟩

/-- C1 counterexample: the profile feed of the fixture author contains the
unpublished fixture post, which fails the visibility predicate, so the
claim that all three listing views only render visible posts is false. -/
theorem C1_counterexample :
    ProfileListView.get_queryset exDB "ivan" = some [exPost2, exPost1] ∧
    postVisible exDB 100 exPost2 = false := by decide

/-- C1 amended: every post rendered in the home feed and in a per-category
feed satisfies the visibility predicate at request time, while the per-user
profile feed contains exactly the stored posts authored by the profiled
user, regardless of publication state: a post is in the feed iff it is a
post row of the database whose author is the profiled user, so unpublished
and future-dated posts are returned too. The category conjunct assumes the
table invariant that category primary keys are distinct. -/
theorem C1_amended (db : DB) (now : Nat) (slug username : String)
    (hnd : db.categories.Pairwise (fun a b => a.id ≠ b.id)) :
    (∀ p ∈ HomePage.get_queryset db now, postVisible db now p = true) ∧
    (∀ ps, CategoryListView.get_queryset db now slug = some ps →
      ∀ p ∈ ps, postVisible db now p = true) ∧
    (∀ u, db.findUserByUsername username = some u →
      ∀ ps, ProfileListView.get_queryset db username = some ps →
        ∀ p, p ∈ ps ↔ (p ∈ db.posts ∧ p.author = u.id)) := by
  refine ⟨?_, ?_, ?_⟩
  · intro p hp
    have hm := (List.perm_insertionSort pubDateDesc _).subset hp
    exact (List.mem_filter.mp hm).2
  · intro ps h p hp
    rcases hf : db.findCategoryBySlug slug with _ | category
    · simp [CategoryListView.get_queryset, hf] at h
    · simp only [CategoryListView.get_queryset, hf] at h
      by_cases hpub : category.is_published
      · rw [if_pos hpub, Option.some.injEq] at h
        subst h
        have hm := (List.perm_insertionSort pubDateDesc _).subset hp
        have hpred := (List.mem_filter.mp hm).2
        simp only [Bool.and_eq_true, beq_iff_eq] at hpred
        obtain ⟨⟨hcat, hpubp⟩, hdate⟩ := hpred
        have hmemcat : category ∈ db.categories := List.mem_of_find?_eq_some hf
        have hfind : db.categories.find? (fun x => x.id == category.id) = some category :=
          find_key_of_mem (fun x => x.id) db.categories hnd category hmemcat
        simp [postVisible, hpubp, hdate, DB.categoryPublished, DB.findCategoryById,
          hcat, hfind, hpub]
      · rw [if_neg hpub] at h
        cases h
  · intro u hu ps h p
    simp only [ProfileListView.get_queryset, hu, Option.some.injEq] at h
    subst h
    unfold orderByPubDateDesc
    rw [(List.perm_insertionSort pubDateDesc _).mem_iff, List.mem_filter]
    constructor
    · intro hm
      exact ⟨hm.1, by simpa using hm.2⟩
    · intro hm
      exact ⟨hm.1, by simpa using hm.2⟩

/-- C1 amended witness: on the fixture database the published fixture post
appears in the home feed and is visible, while the profile feed of the
author is forced to contain the unpublished fixture post, which fails the
visibility predicate. -/
theorem C1_amended_witness :
    postVisible exDB 100 exPost1 = true ∧
    exPost2 ∈ ([exPost2, exPost1] : List Post) ∧
    postVisible exDB 100 exPost2 = false := by
  have h := C1_amended exDB 100 "news" "ivan" (by decide)
  exact ⟨h.1 exPost1 (by decide),
    (h.2.2 exU1 (by decide) [exPost2, exPost1] (by decide) exPost2).mpr
      ⟨by decide, by decide⟩,
    by decide⟩

/-- C9: the three listing views share the page size 10 and order their
querysets by publication date descending, and a paginator page over any
queryset holds at most PAGE_PAGINATOR posts. -/
theorem C9_ordering_pagination (db : DB) (now pageNum : Nat) (slug username : String)
    (xs : List Post) :
    PAGE_PAGINATOR = 10 ∧
    (HomePage.get_queryset db now).Sorted pubDateDesc ∧
    (∀ ps, CategoryListView.get_queryset db now slug = some ps →
      ps.Sorted pubDateDesc) ∧
    (∀ ps, ProfileListView.get_queryset db username = some ps →
      ps.Sorted pubDateDesc) ∧
    (paginate xs PAGE_PAGINATOR pageNum).length ≤ PAGE_PAGINATOR := by
  refine ⟨rfl, ?_, ?_, ?_, ?_⟩
  · exact List.sorted_insertionSort pubDateDesc _
  · intro ps h
    rcases hf : db.findCategoryBySlug slug with _ | category
    · simp [CategoryListView.get_queryset, hf] at h
    · simp only [CategoryListView.get_queryset, hf] at h
      by_cases hpub : category.is_published
      · rw [if_pos hpub, Option.some.injEq] at h
        subst h
        exact List.sorted_insertionSort pubDateDesc _
      · rw [if_neg hpub] at h
        cases h
  · intro ps h
    rcases hf : db.findUserByUsername username with _ | profile
    · simp [ProfileListView.get_queryset, hf] at h
    · simp only [ProfileListView.get_queryset, hf, Option.some.injEq] at h
      subst h
      exact List.sorted_insertionSort pubDateDesc _
  · unfold paginate
    exact List.length_take_le PAGE_PAGINATOR (xs.drop ((pageNum - 1) * PAGE_PAGINATOR))

/-- C9 witness: the fixture category and profile feeds are sorted by
publication date descending and a fixture page holds at most 10 posts. -/
theorem C9_ordering_pagination_witness :
    ([exPost2, exPost1] : List Post).Sorted pubDateDesc ∧
    ([exPost1] : List Post).Sorted pubDateDesc ∧
    (paginate [exPost1, exPost2] PAGE_PAGINATOR 1).length ≤ PAGE_PAGINATOR := by
  have h := C9_ordering_pagination exDB 100 1 "news" "ivan" [exPost1, exPost2]
  exact ⟨h.2.2.2.1 [exPost2, exPost1] (by decide),
    h.2.2.1 [exPost1] (by decide), h.2.2.2.2⟩

end Blog
